import Mathlib

/-!
Verification model of the xiaone proxy server.

The definitions below are a shallow embedding of the JavaScript source
(`RequestHandler`, `ConnectionRegistry`, `MessageQueue`, `BrowserManager`
and the auth-index selection logic of the main server file).  JS numbers
appearing as HTTP status codes are modeled as `Int`, possibly-absent
fields as `Option`, JS strings as Lean `String` / `List Char`.  The
cooperative async execution of one request is modeled as a pure function
over the sequence of results its mailbox dequeues would produce
(`List DeqRes`); timers (the keep-alive interval) fire zero times in this
instantaneous model.  Thrown JS exceptions are modeled with `Except` /
`Option` error components.
-/

namespace Xiaone

/-! ### Status-code extraction from failure message text

The JS source matches the regexes
`/(?:HTTP|status code)\s+(\d{3})/`  (in `_parseAndCorrectErrorDetails`) and
`/(?:HTTP|status code)\s*(\d{3})|"code"\s*:\s*(\d{3})/`  (inline in
`_handleRequestFailureAndSwitch`) against the error message, taking the
leftmost match.  `\s` is modeled by the ASCII whitespace characters. -/

def jsWhitespace (c : Char) : Bool :=
  c = ' ' || c = '\t' || c = '\n' || c = '\r' || c = '\x0b' || c = '\x0c'

def digitVal (c : Char) : Nat := c.toNat - '0'.toNat

/-- `\d{3}`: the next three characters are digits; their numeric value. -/
def threeDigits : List Char → Option Nat
  | a :: b :: c :: _ =>
    if a.isDigit && b.isDigit && c.isDigit then
      some (100 * digitVal a + 10 * digitVal b + digitVal c)
    else none
  | _ => none

def skipJsWs : List Char → List Char
  | c :: rest => if jsWhitespace c then skipJsWs rest else c :: rest
  | [] => []

/-- `\s*(\d{3})` (whitespace and digits are disjoint, so greedy matching is
deterministic). -/
def wsStarDigits (cs : List Char) : Option Nat := threeDigits (skipJsWs cs)

/-- `\s+(\d{3})`. -/
def wsPlusDigits : List Char → Option Nat
  | c :: rest => if jsWhitespace c then wsStarDigits rest else none
  | [] => none

def afterLit (lit cs : List Char) : Option (List Char) :=
  if lit.isPrefixOf cs then some (cs.drop lit.length) else none

/-- One attempted match of `(?:HTTP|status code)\s+(\d{3})` at the head. -/
def matchAt1 (cs : List Char) : Option Nat :=
  match afterLit "HTTP".toList cs with
  | some rest => wsPlusDigits rest
  | none =>
    match afterLit "status code".toList cs with
    | some rest => wsPlusDigits rest
    | none => none

/-- Leftmost match of `/(?:HTTP|status code)\s+(\d{3})/`. -/
def findMatch1 : List Char → Option Nat
  | [] => none
  | c :: rest =>
    match matchAt1 (c :: rest) with
    | some n => some n
    | none => findMatch1 rest

/-- One attempted match of
`(?:HTTP|status code)\s*(\d{3})|"code"\s*:\s*(\d{3})` at the head. -/
def matchAt2 (cs : List Char) : Option Nat :=
  match afterLit "HTTP".toList cs with
  | some rest => wsStarDigits rest
  | none =>
    match afterLit "status code".toList cs with
    | some rest => wsStarDigits rest
    | none =>
      match afterLit "\"code\"".toList cs with
      | some rest =>
        match skipJsWs rest with
        | ':' :: rest2 => wsStarDigits rest2
        | _ => none
      | none => none

/-- Leftmost match of the second regex. -/
def findMatch2 : List Char → Option Nat
  | [] => none
  | c :: rest =>
    match matchAt2 (c :: rest) with
    | some n => some n
    | none => findMatch2 rest

/-! ### Error details and the two status corrections -/

/-- The `{status, message}` part of a worker error payload.  Either field
may be absent (`undefined`). -/
structure ErrDetails where
  status : Option Int
  message : Option String
deriving DecidableEq, Repr

/-- `_parseAndCorrectErrorDetails` (part_000 lines 682-703): if the message
text matches `/(?:HTTP|status code)\s+(\d{3})/` with a value in 400-599
differing from the explicit status, replace the status. -/
def parseAndCorrectErrorDetails (e : ErrDetails) : ErrDetails :=
  match e.message with
  | some m =>
    if m = "" then e
    else
      match findMatch1 m.toList with
      | some p =>
        if 400 ≤ p ∧ p ≤ 599 then
          if e.status ≠ some (p : Int) then { e with status := some (p : Int) } else e
        else e
      | none => e
  | none => e

/-- The inline correction at the top of `_handleRequestFailureAndSwitch`
(part_000 lines 711-724), using the second regex. -/
def correctStatusInSwitch (e : ErrDetails) : ErrDetails :=
  match e.message with
  | some m =>
    if m = "" then e
    else
      match findMatch2 m.toList with
      | some p =>
        if 400 ≤ p ∧ p ≤ 599 ∧ e.status ≠ some (p : Int) then
          { e with status := some (p : Int) }
        else e
      | none => e
  | none => e

/-- The status the first regex heuristic extracts (after the 400-599
filter the code applies): the code's notion of "the message embeds a
numeric status". -/
def extractedTextStatus (e : ErrDetails) : Option Nat :=
  match e.message with
  | some m =>
    if m = "" then none
    else
      match findMatch1 m.toList with
      | some p => if 400 ≤ p ∧ p ≤ 599 then some p else none
      | none => none
  | none => none

/-- Same for the second regex. -/
def extractedTextStatus2 (e : ErrDetails) : Option Nat :=
  match e.message with
  | some m =>
    if m = "" then none
    else
      match findMatch2 m.toList with
      | some p => if 400 ≤ p ∧ p ≤ 599 then some p else none
      | none => none
  | none => none

/-! ### Credential selection (`_getNextAuthIndex`, part_000 lines 625-639) -/

/-- Round-robin selection over the available indices.  JS `indexOf`
returns `-1` when absent; Lean's `List.indexOf` returns the length, so
the absent test compares with `available.length`. -/
def getNextAuthIndex (available : List Nat) (current : Nat) : Option Nat :=
  if available.length = 0 then none
  else if available.length = 1 then available[0]?
  else
    let currentIndexInArray := available.indexOf current
    if currentIndexInArray = available.length then available[0]?
    else available[(currentIndexInArray + 1) % available.length]?

/-! ### Browser manager (`launchBrowser` / `closeBrowser` / `switchAccount`,
part_000 lines 205-447)

The page automation is opaque; what matters to the claims is that
`this.currentAuthIndex = authIndex` is executed only after a fully
successful launch, and that a failed launch closes the browser and
rethrows.  The environment decides whether a launch at a given index
succeeds (`launchOk`). -/

structure BrowserState where
  currentAuthIndex : Nat
  browserOpen : Bool
deriving DecidableEq, Repr

/-- Returns the new state and `true` for normal return, `false` for a
thrown launch error. -/
def launchBrowser (launchOk : Nat → Bool) (authIndex : Nat) (bm : BrowserState) :
    BrowserState × Bool :=
  if bm.browserOpen then (bm, true)
  else if launchOk authIndex then ({ currentAuthIndex := authIndex, browserOpen := true }, true)
  else ({ bm with browserOpen := false }, false)

def closeBrowser (bm : BrowserState) : BrowserState :=
  { bm with browserOpen := false }

def switchAccount (launchOk : Nat → Bool) (newAuthIndex : Nat) (bm : BrowserState) :
    BrowserState × Bool :=
  launchBrowser launchOk newAuthIndex (closeBrowser bm)

/-! ### Failover controller (`_switchToNextAuth` and
`_handleRequestFailureAndSwitch`, part_000 lines 641-758) -/

structure Config where
  maxRetries : Nat
  failureThreshold : Nat
  immediateSwitchStatusCodes : List Int
deriving Repr

/-- The dispatcher's environment: configuration, the available auth
indices (`authSource.getAvailableIndices()`), and which launches
succeed. -/
structure Env where
  cfg : Config
  avail : List Nat
  launchOk : Nat → Bool

/-- `failureCount` / `isAuthSwitching` live on the `RequestHandler`;
`currentAuthIndex` on the browser manager. -/
structure FailoverState where
  failureCount : Nat
  isAuthSwitching : Bool
  bm : BrowserState
deriving DecidableEq, Repr

inductive SwitchOutcome where
  /-- rotation completed; counter reset -/
  | rotated
  /-- `isAuthSwitching` was set: log and plain return (no-op) -/
  | skipped
  /-- thrown: no available auth source -/
  | noAuthError
  /-- thrown: the rebuild (`switchAccount`) failed -/
  | launchFailed
deriving DecidableEq, Repr

/-- `_switchToNextAuth`.  The `isAuthSwitching` flag is raised on entry
and lowered in the `finally`, so in this sequential model the stored
flag is unchanged; a re-entrant call observes `skipped`. -/
def switchToNextAuth (env : Env) (fo : FailoverState) : FailoverState × SwitchOutcome :=
  if fo.isAuthSwitching then (fo, .skipped)
  else
    match getNextAuthIndex env.avail fo.bm.currentAuthIndex with
    | none => (fo, .noAuthError)
    | some nextAuthIndex =>
      let r := switchAccount env.launchOk nextAuthIndex fo.bm
      if r.2 then ({ failureCount := 0, isAuthSwitching := false, bm := r.1 }, .rotated)
      else ({ fo with bm := r.1 }, .launchFailed)

/-- In-band notices `_sendErrorChunkToClient` can write; the exact
`data: {"error": ...}` JSON text is abstracted to its parameters. -/
def isRotated : SwitchOutcome → Bool
  | .rotated => true
  | _ => false

inductive ErrNote where
  | immediateSwitch (status : Option Int)
  | thresholdReached (count : Nat)
  | switched (idx : Nat)
  | switchFailed
  | retryNotice (status : Option Int) (willRetry : Bool)
  | finalFailure (status : Option Int) (message : Option String)
  | processingFailed
deriving DecidableEq, Repr

/-- What the dispatcher writes to the client response stream. -/
inductive WriteItem where
  /-- `res.write s` of exactly the string `s` -/
  | text (s : String)
  /-- an `_sendErrorChunkToClient` SSE frame carrying the given notice -/
  | errorChunk (n : ErrNote)
deriving DecidableEq, Repr

/-- The observable client response (`res`). -/
structure Response where
  status : Option Int := none
  headersList : List (String × String) := []
  writes : List WriteItem := []
  body : Option String := none
  headersSent : Bool := false
  ended : Bool := false
deriving DecidableEq, Repr

def Response.write (r : Response) (w : WriteItem) : Response :=
  { r with writes := r.writes ++ [w], headersSent := true }

/-- `res.end()` (no-op if already ended). -/
def endResponse (r : Response) : Response :=
  if r.ended then r else { r with ended := true, headersSent := true }

/-- `_sendErrorChunkToClient` (part_000 lines 868-877): writes an SSE
error frame unless the response has already ended. -/
def sendErrorChunkToClient (r : Response) (n : ErrNote) : Response :=
  if r.ended then r else r.write (.errorChunk n)

/-- `_sendErrorResponse` (part_000 lines 1053-1055):
`if (!res.headersSent) res.status(status || 500).type('text/plain').send(message)`. -/
def sendErrorResponse (r : Response) (status : Option Int) (message : Option String) :
    Response :=
  if r.headersSent then r
  else
    { r with
      status := some (match status with | some st => if st = 0 then 500 else st | none => 500)
      body := message
      headersSent := true
      ended := true }

def maybeChunk (res : Option Response) (n : ErrNote) : Option Response :=
  res.map (fun r => sendErrorChunkToClient r n)

/-- JS `immediateSwitchStatusCodes.includes(status)`; `undefined` is in
no list. -/
def statusIsImmediate (cfg : Config) (st : Option Int) : Bool :=
  match st with
  | some s => cfg.immediateSwitchStatusCodes.contains s
  | none => false

/-- `_handleRequestFailureAndSwitch` (part_000 lines 705-758).  Returns
the new failover state, the (optional) response after any in-band
notices, and whether a rotation completed during the call.  Note that a
`skipped` switch returns normally in JS, so the success notice is also
written in that case. -/
def handleRequestFailureAndSwitch (env : Env) (errorDetails : ErrDetails)
    (fo : FailoverState) (res : Option Response) :
    FailoverState × Option Response × Bool :=
  let corrected := correctStatusInSwitch errorDetails
  if statusIsImmediate env.cfg corrected.status then
    let res1 := maybeChunk res (.immediateSwitch corrected.status)
    let r := switchToNextAuth env fo
    let res2 :=
      match r.2 with
      | .rotated => maybeChunk res1 (.switched r.1.bm.currentAuthIndex)
      | .skipped => maybeChunk res1 (.switched r.1.bm.currentAuthIndex)
      | _ => maybeChunk res1 .switchFailed
    (r.1, res2, isRotated r.2)
  else if 0 < env.cfg.failureThreshold then
    let fo1 := { fo with failureCount := fo.failureCount + 1 }
    if env.cfg.failureThreshold ≤ fo1.failureCount then
      let res1 := maybeChunk res (.thresholdReached fo1.failureCount)
      let r := switchToNextAuth env fo1
      let res2 :=
        match r.2 with
        | .rotated => maybeChunk res1 (.switched r.1.bm.currentAuthIndex)
        | .skipped => maybeChunk res1 (.switched r.1.bm.currentAuthIndex)
        | _ => maybeChunk res1 .switchFailed
      (r.1, res2, isRotated r.2)
    else (fo1, res, false)
  else (fo, res, false)

/-! ### Worker events and the mailbox feed

`ConnectionRegistry._routeMessage` passes `response_headers` / `chunk` /
`error` frames through and turns `stream_close` into `{type: 'STREAM_END'}`.
A request's successive `messageQueue.dequeue()` results are modeled as a
list: an exhausted list means no further frame ever arrives, so the
pending dequeue ends in its timeout. -/

inductive JMsg where
  | headers (status : Option Int) (hdrs : List (String × String))
  | chunk (data : Option String)
  | error (status : Option Int) (message : Option String)
  | streamEnd
deriving DecidableEq, Repr

inductive JsErr where
  /-- `Error('队列超时')` from `dequeue` -/
  | timeoutErr
  /-- `Error('队列已关闭')` from a closed queue -/
  | closedErr
  /-- TypeError from reading a field of `undefined` (`maxRetries = 0`) -/
  | typeError
deriving DecidableEq, Repr

inductive DeqRes where
  | msg (m : JMsg)
  | timeoutErr
  | closedErr
deriving DecidableEq, Repr

def deq : List DeqRes → DeqRes × List DeqRes
  | [] => (.timeoutErr, [])
  | r :: rest => (r, rest)

/-- `lastMessage.event_type === 'error' && lastMessage.status >= 400 &&
lastMessage.status <= 599` (an absent status compares false). -/
def isRetryableError : JMsg → Bool
  | .error (some st) _ => 400 ≤ st && st ≤ 599
  | _ => false

def isErrorMsg : JMsg → Bool
  | .error _ _ => true
  | _ => false

def isStreamEnd : JMsg → Bool
  | .streamEnd => true
  | _ => false

/-- The truthy `.data` field of a message (only `chunk` frames carry one;
the empty string is falsy). -/
def msgData : JMsg → Option String
  | .chunk (some d) => if d = "" then none else some d
  | _ => none

def msgStatus : JMsg → Option Int
  | .headers st _ => st
  | .error st _ => st
  | _ => none

def msgHeaders : JMsg → List (String × String)
  | .headers _ h => h
  | _ => []

/-- The `{status, message}` view of a message, as spread into the error
correction helpers. -/
def msgErrDetails : JMsg → ErrDetails
  | .error st m => ⟨st, m⟩
  | .headers st _ => ⟨st, none⟩
  | _ => ⟨none, none⟩

def errMessage : JsErr → String
  | .timeoutErr => "队列超时"
  | .closedErr => "队列已关闭"
  | .typeError => "Cannot read properties of undefined"

/-- `error.message.includes('超时')` used by `_handleRequestError`. -/
def errIncludesTimeout : JsErr → Bool
  | .timeoutErr => true
  | _ => false

/-! ### The retry loop of `_handleRealStreamResponse`
(part_000 lines 990-1009)

`realRetryLoop env fuel fo feed` runs the `for` loop with `fuel`
attempts remaining (`fuel = maxRetries - attempt + 1`); `fuel = 0` is the
`maxRetries = 0` fall-through where `headerMessage` stays `undefined`.
The outcome carries `headerMessage` and the `requestFailed` flag; `sends`,
`sleeps` and `rotations` count descriptor forwards, `retryDelay` waits and
completed credential rotations. -/

structure LoopOutR where
  fo : FailoverState
  sends : Nat
  sleeps : Nat
  rotations : Nat
  rest : List DeqRes
  outcome : Except JsErr (Option JMsg × Bool)

def realRetryLoop (env : Env) : Nat → FailoverState → List DeqRes → LoopOutR
  | 0, fo, feed => ⟨fo, 0, 0, 0, feed, .ok (none, false)⟩
  | r + 1, fo, feed =>
    match feed with
    | [] => ⟨fo, 1, 0, 0, [], .error .timeoutErr⟩
    | .timeoutErr :: rest => ⟨fo, 1, 0, 0, rest, .error .timeoutErr⟩
    | .closedErr :: rest => ⟨fo, 1, 0, 0, rest, .error .closedErr⟩
    | .msg m :: rest =>
      if isRetryableError m then
        let corrected := parseAndCorrectErrorDetails (msgErrDetails m)
        let h := handleRequestFailureAndSwitch env corrected fo none
        let rots := if h.2.2 then 1 else 0
        if r = 0 then ⟨h.1, 1, 0, rots, rest, .ok (some m, true)⟩
        else
          let out := realRetryLoop env r h.1 rest
          ⟨out.fo, out.sends + 1, out.sleeps + 1, out.rotations + rots, out.rest, out.outcome⟩
      else ⟨fo, 1, 0, 0, rest, .ok (some m, false)⟩

/-- `_setResponseHeaders` (part_000 lines 1035-1041):
`res.status(headerMessage.status || 200)` and relay all headers except
`content-length`. -/
def setResponseHeaders (res : Response) (status : Option Int)
    (hdrs : List (String × String)) : Response :=
  { res with
    status := some (match status with | some st => if st = 0 then 200 else st | none => 200)
    headersList := res.headersList ++ hdrs.filter (fun h => h.1.toLower ≠ "content-length") }

/-- The passthrough relay loop of `_handleRealStreamResponse`
(part_000 lines 1020-1032): dequeue with the 30s chunk timeout;
`STREAM_END` breaks; truthy `.data` is written verbatim; a `队列超时`
timeout is swallowed as benign end-of-stream; any other exception is
rethrown after the `finally` has closed the response. -/
def realStreamBody : List DeqRes → Response → Response × Option JsErr
  | [], res => (endResponse res, none)
  | .timeoutErr :: _, res => (endResponse res, none)
  | .closedErr :: _, res => (endResponse res, some .closedErr)
  | .msg m :: rest, res =>
    if isStreamEnd m then (endResponse res, none)
    else
      match msgData m with
      | some d => realStreamBody rest (res.write (.text d))
      | none => realStreamBody rest res

structure HandlerResult where
  fo : FailoverState
  res : Response
  sends : Nat
  sleeps : Nat
  rotations : Nat
  /-- an exception escaping the handler to `processRequest`'s catch -/
  thrown : Option JsErr

/-- `_handleRealStreamResponse` (part_000 lines 990-1033). -/
def handleRealStreamResponse (env : Env) (fo : FailoverState) (feed : List DeqRes)
    (res : Response) : HandlerResult :=
  let L := realRetryLoop env env.cfg.maxRetries fo feed
  match L.outcome with
  | .error e => ⟨L.fo, res, L.sends, L.sleeps, L.rotations, some e⟩
  | .ok (none, _) => ⟨L.fo, res, L.sends, L.sleeps, L.rotations, some .typeError⟩
  | .ok (some m, failed) =>
    if isErrorMsg m || failed then
      let finalError := parseAndCorrectErrorDetails (msgErrDetails m)
      ⟨L.fo, sendErrorResponse res finalError.status finalError.message,
        L.sends, L.sleeps, L.rotations, none⟩
    else
      let res1 := setResponseHeaders res (msgStatus m) (msgHeaders m)
      let rb := realStreamBody L.rest res1
      ⟨{ L.fo with failureCount := 0 }, rb.1, L.sends, L.sleeps, L.rotations, rb.2⟩

/-! ### JSON (`JSON.parse` / `JSON.stringify` for the pseudo-stream
non-streaming reply)

A standard JSON value and a recursive-descent parser.  Numbers are kept
as their source lexeme (re-formatting through binary floating point is
outside this model, and no claim exercises it); `\uXXXX` escapes are
mapped to the scalar of that code unit, leaving UTF-16 surrogate pairing
outside the model. -/

inductive JValue where
  | jnull
  | jbool (b : Bool)
  | jnum (lexeme : String)
  | jstr (s : String)
  | jarr (elems : List JValue)
  | jobj (members : List (String × JValue))
deriving Repr

def parseHexDigit (c : Char) : Option Nat :=
  if c.isDigit then some (digitVal c)
  else if 'a' ≤ c ∧ c ≤ 'f' then some (c.toNat - 'a'.toNat + 10)
  else if 'A' ≤ c ∧ c ≤ 'F' then some (c.toNat - 'A'.toNat + 10)
  else none

/-- JSON insignificant whitespace. -/
def skipJsonWs : List Char → List Char
  | c :: rest =>
    if c = ' ' || c = '\t' || c = '\n' || c = '\r' then skipJsonWs rest else c :: rest
  | [] => []

/-- Body of a JSON string after the opening quote: returns the decoded
characters and the remainder after the closing quote. -/
def parseJStr : Nat → List Char → Option (List Char × List Char)
  | 0, _ => none
  | _, [] => none
  | fuel + 1, c :: rest =>
    if c = '"' then some ([], rest)
    else if c = '\\' then
      match rest with
      | [] => none
      | e :: rest2 =>
        let cont := fun (ch : Char) (rem : List Char) =>
          (parseJStr fuel rem).map (fun p => (ch :: p.1, p.2))
        if e = '"' then cont '"' rest2
        else if e = '\\' then cont '\\' rest2
        else if e = '/' then cont '/' rest2
        else if e = 'b' then cont '\x08' rest2
        else if e = 'f' then cont '\x0c' rest2
        else if e = 'n' then cont '\n' rest2
        else if e = 'r' then cont '\r' rest2
        else if e = 't' then cont '\t' rest2
        else if e = 'u' then
          match rest2 with
          | h1 :: h2 :: h3 :: h4 :: rest3 =>
            match parseHexDigit h1, parseHexDigit h2, parseHexDigit h3, parseHexDigit h4 with
            | some a, some b, some c2, some d =>
              cont (Char.ofNat (4096 * a + 256 * b + 16 * c2 + d)) rest3
            | _, _, _, _ => none
          | _ => none
        else none
    else if c.toNat < 32 then none
    else (parseJStr fuel rest).map (fun p => (c :: p.1, p.2))

def spanDigits : List Char → List Char × List Char
  | [] => ([], [])
  | c :: rest =>
    if c.isDigit then
      let p := spanDigits rest
      (c :: p.1, p.2)
    else ([], c :: rest)

/-- JSON number lexeme: `-? int frac? exp?` with no leading zeros. -/
def parseJNum (cs : List Char) : Option (List Char × List Char) :=
  let sgn : List Char × List Char :=
    match cs with
    | '-' :: rest => (['-'], rest)
    | _ => ([], cs)
  match sgn.2 with
  | [] => none
  | c :: rest =>
    if c = '0' then
      let intPart := (sgn.1 ++ ['0'], rest)
      some (parseJNumFrac intPart.1 intPart.2)
    else if c.isDigit then
      let p := spanDigits rest
      some (parseJNumFrac (sgn.1 ++ c :: p.1) p.2)
    else none
where
  parseJNumFrac (acc : List Char) (cs : List Char) : List Char × List Char :=
    let afterFrac : List Char × List Char :=
      match cs with
      | '.' :: d :: rest =>
        if d.isDigit then
          let p := spanDigits rest
          (acc ++ '.' :: d :: p.1, p.2)
        else (acc, cs)
      | _ => (acc, cs)
    match afterFrac.2 with
    | e :: rest =>
      if e = 'e' ∨ e = 'E' then
        match rest with
        | s :: d :: rest2 =>
          if (s = '+' ∨ s = '-') ∧ d.isDigit then
            let p := spanDigits rest2
            (afterFrac.1 ++ e :: s :: d :: p.1, p.2)
          else if s.isDigit then
            let p := spanDigits rest
            (afterFrac.1 ++ e :: p.1, p.2)
          else afterFrac
        | [d] =>
          if d.isDigit then (afterFrac.1 ++ [e, d], [])
          else afterFrac
        | [] => afterFrac
      else afterFrac
    | [] => afterFrac

mutual

def parseJValue : Nat → List Char → Option (JValue × List Char)
  | 0, _ => none
  | fuel + 1, cs =>
    match skipJsonWs cs with
    | [] => none
    | c :: rest =>
      if c = '"' then
        (parseJStr fuel rest).map (fun p => (.jstr (String.mk p.1), p.2))
      else if c = '\x7b' then parseJMembers fuel (skipJsonWs rest) true
      else if c = '[' then parseJElems fuel (skipJsonWs rest) true
      else if "null".toList.isPrefixOf (c :: rest) then
        some (.jnull, (c :: rest).drop 4)
      else if "true".toList.isPrefixOf (c :: rest) then
        some (.jbool true, (c :: rest).drop 4)
      else if "false".toList.isPrefixOf (c :: rest) then
        some (.jbool false, (c :: rest).drop 5)
      else
        (parseJNum (c :: rest)).map (fun p => (.jnum (String.mk p.1), p.2))

/-- Members of an object after `{` (`first` marks the position before the
first member, where `}` closes an empty object). -/
def parseJMembers : Nat → List Char → Bool → Option (JValue × List Char)
  | 0, _, _ => none
  | fuel + 1, cs, first =>
    match cs with
    | '\x7d' :: rest => if first then some (.jobj [], rest) else none
    | '"' :: rest =>
      match parseJStr fuel rest with
      | none => none
      | some (key, rest2) =>
        match skipJsonWs rest2 with
        | ':' :: rest3 =>
          match parseJValue fuel rest3 with
          | none => none
          | some (v, rest4) =>
            match skipJsonWs rest4 with
            | '\x7d' :: rest5 => some (.jobj [(String.mk key, v)], rest5)
            | ',' :: rest5 =>
              match parseJMembers fuel (skipJsonWs rest5) false with
              | some (.jobj ms, rest6) => some (.jobj ((String.mk key, v) :: ms), rest6)
              | _ => none
            | _ => none
        | _ => none
    | _ => none

/-- Elements of an array after `[`. -/
def parseJElems : Nat → List Char → Bool → Option (JValue × List Char)
  | 0, _, _ => none
  | fuel + 1, cs, first =>
    match cs with
    | ']' :: rest => if first then some (.jarr [], rest) else none
    | _ =>
      match parseJValue fuel cs with
      | none => none
      | some (v, rest) =>
        match skipJsonWs rest with
        | ']' :: rest2 => some (.jarr [v], rest2)
        | ',' :: rest2 =>
          match parseJElems fuel (skipJsonWs rest2) false with
          | some (.jarr vs, rest3) => some (.jarr (v :: vs), rest3)
          | _ => none
        | _ => none

end

/-- `JSON.parse`: the whole text must be one JSON value. -/
def jparse (s : String) : Option JValue :=
  match parseJValue (2 * s.length + 4) s.toList with
  | some (v, rest) =>
    match skipJsonWs rest with
    | [] => some v
    | _ => none
  | none => none

def lowHexChar (n : Nat) : Char :=
  if n < 10 then Char.ofNat (48 + n) else Char.ofNat (87 + n)

def escapeJChar (c : Char) : List Char :=
  if c = '"' ∨ c = '\\' then ['\\', c]
  else if c = '\n' then ['\\', 'n']
  else if c = '\t' then ['\\', 't']
  else if c = '\r' then ['\\', 'r']
  else if c = '\x08' then ['\\', 'b']
  else if c = '\x0c' then ['\\', 'f']
  else if c.toNat < 32 then
    '\\' :: 'u' :: '0' :: '0' :: lowHexChar (c.toNat / 16) :: [lowHexChar (c.toNat % 16)]
  else [c]

def jquote (s : String) : String :=
  "\"" ++ String.mk (s.toList.map escapeJChar).flatten ++ "\""

mutual

/-- `JSON.stringify` (numbers emit their stored lexeme). -/
def jstringify : JValue → String
  | .jnull => "null"
  | .jbool true => "true"
  | .jbool false => "false"
  | .jnum lexeme => lexeme
  | .jstr s => jquote s
  | .jarr elems => "[" ++ jstringifyElems elems ++ "]"
  | .jobj members => "\x7b" ++ jstringifyMembers members ++ "\x7d"

def jstringifyElems : List JValue → String
  | [] => ""
  | [v] => jstringify v
  | v :: vs => jstringify v ++ "," ++ jstringifyElems vs

def jstringifyMembers : List (String × JValue) → String
  | [] => ""
  | [(k, v)] => jquote k ++ ":" ++ jstringify v
  | (k, v) :: ms => jquote k ++ ":" ++ jstringify v ++ "," ++ jstringifyMembers ms

end

/-! ### `_handlePseudoStreamResponse` (part_000 lines 891-988) -/

/-- JS `String.prototype.includes`. -/
def listHasInfix (pat : List Char) : List Char → Bool
  | [] => pat.isPrefixOf ([] : List Char)
  | c :: rest => pat.isPrefixOf (c :: rest) || listHasInfix pat rest

/-- `originalPath.includes(':stream')`. -/
def hasStreamMarker (path : String) : Bool :=
  listHasInfix ":stream".toList path.toList

def sseHeaders : List (String × String) :=
  [("Content-Type", "text/event-stream"), ("Cache-Control", "no-cache"),
   ("Connection", "keep-alive")]

/-- `res.status(200).json(jsonData)`. -/
def resJson (r : Response) (v : JValue) : Response :=
  { r with status := some 200, body := some (jstringify v), headersSent := true, ended := true }

/-- A JS template interpolation of a possibly-undefined value. -/
def optStr : Option String → String
  | some s => s
  | none => "undefined"

structure LoopOutP where
  fo : FailoverState
  res : Response
  sends : Nat
  sleeps : Nat
  rotations : Nat
  rest : List DeqRes
  outcome : Except JsErr (Option JMsg × Bool)

/-- The retry loop of `_handlePseudoStreamResponse` (part_000 lines
910-934).  Differs from the real-stream loop in passing the response to
`_handleRequestFailureAndSwitch` and writing the retry notice when the
request is a stream request. -/
def pseudoRetryLoop (env : Env) (isStream : Bool) :
    Nat → FailoverState → Response → List DeqRes → LoopOutP
  | 0, fo, res, feed => ⟨fo, res, 0, 0, 0, feed, .ok (none, false)⟩
  | r + 1, fo, res, feed =>
    match feed with
    | [] => ⟨fo, res, 1, 0, 0, [], .error .timeoutErr⟩
    | .timeoutErr :: rest => ⟨fo, res, 1, 0, 0, rest, .error .timeoutErr⟩
    | .closedErr :: rest => ⟨fo, res, 1, 0, 0, rest, .error .closedErr⟩
    | .msg m :: rest =>
      if isRetryableError m then
        let corrected := parseAndCorrectErrorDetails (msgErrDetails m)
        let h := handleRequestFailureAndSwitch env corrected fo
          (if isStream then some res else none)
        let res1 := match h.2.1 with | some r1 => r1 | none => res
        let res2 :=
          if isStream then sendErrorChunkToClient res1 (.retryNotice corrected.status (r ≠ 0))
          else res1
        let rots := if h.2.2 then 1 else 0
        if r = 0 then ⟨h.1, res2, 1, 0, rots, rest, .ok (some m, true)⟩
        else
          let out := pseudoRetryLoop env isStream r h.1 res2 rest
          ⟨out.fo, out.res, out.sends + 1, out.sleeps + 1, out.rotations + rots, out.rest,
            out.outcome⟩
      else ⟨fo, res, 1, 0, 0, rest, .ok (some m, false)⟩

/-- The inner `catch` of `_handlePseudoStreamResponse` (lines 976-982):
`_handleRequestError` when headers were not sent, else an in-band error
chunk. -/
def pseudoCatch (e : JsErr) (res : Response) : Response :=
  if res.headersSent then sendErrorChunkToClient res .processingFailed
  else
    sendErrorResponse res (some (if errIncludesTimeout e then 504 else 500))
      (some ("代理错误: " ++ errMessage e))

/-- `_handlePseudoStreamResponse`.  The keep-alive interval writes are
time-driven and fire zero times in this instantaneous model; its
`clearInterval` happens in the `finally` together with `res.end()`. -/
def handlePseudoStreamResponse (env : Env) (path : String) (fo : FailoverState)
    (feed : List DeqRes) (res : Response) : HandlerResult :=
  let isStream := hasStreamMarker path
  let res0 :=
    if isStream then { res with status := some 200, headersList := res.headersList ++ sseHeaders }
    else res
  let L := pseudoRetryLoop env isStream env.cfg.maxRetries fo res0 feed
  match L.outcome with
  | .error e =>
    ⟨L.fo, endResponse (pseudoCatch e L.res), L.sends, L.sleeps, L.rotations, none⟩
  | .ok (none, _) =>
    ⟨L.fo, endResponse (pseudoCatch .typeError L.res), L.sends, L.sleeps, L.rotations, none⟩
  | .ok (some m, failed) =>
    if isErrorMsg m || failed then
      let finalError := parseAndCorrectErrorDetails (msgErrDetails m)
      let resE :=
        if L.res.headersSent then
          sendErrorChunkToClient L.res (.finalFailure finalError.status finalError.message)
        else
          sendErrorResponse L.res finalError.status
            (some ("请求失败: " ++ optStr finalError.message))
      ⟨L.fo, endResponse resE, L.sends, L.sleeps, L.rotations, none⟩
    else
      let fo1 := { L.fo with failureCount := 0 }
      let d1 := deq L.rest
      match d1.1 with
      | .timeoutErr =>
        ⟨fo1, endResponse (pseudoCatch .timeoutErr L.res), L.sends, L.sleeps, L.rotations, none⟩
      | .closedErr =>
        ⟨fo1, endResponse (pseudoCatch .closedErr L.res), L.sends, L.sleeps, L.rotations, none⟩
      | .msg dataMessage =>
        let d2 := deq d1.2
        match d2.1 with
        | .timeoutErr =>
          ⟨fo1, endResponse (pseudoCatch .timeoutErr L.res), L.sends, L.sleeps, L.rotations, none⟩
        | .closedErr =>
          ⟨fo1, endResponse (pseudoCatch .closedErr L.res), L.sends, L.sleeps, L.rotations, none⟩
        | .msg _endMessage =>
          if isStream then
            let resA :=
              match msgData dataMessage with
              | some d => L.res.write (.text ("data: " ++ d ++ "\n\n"))
              | none => L.res
            let resB := resA.write (.text "data: [DONE]\n\n")
            ⟨fo1, endResponse resB, L.sends, L.sleeps, L.rotations, none⟩
          else
            match msgData dataMessage with
            | some d =>
              match jparse d with
              | some jsonData =>
                ⟨fo1, endResponse (resJson L.res jsonData), L.sends, L.sleeps, L.rotations, none⟩
              | none =>
                ⟨fo1,
                  endResponse
                    (sendErrorResponse L.res (some 500) (some "代理内部错误：无法解析来自后端的响应。")),
                  L.sends, L.sleeps, L.rotations, none⟩
            | none =>
              ⟨fo1,
                endResponse
                  (sendErrorResponse L.res (some 500) (some "代理内部错误：后端未返回有效数据。")),
                L.sends, L.sleeps, L.rotations, none⟩

/-! ### `MessageQueue` and `ConnectionRegistry`
(part_000 lines 491-605)

A queue holds buffered messages and a number of pending dequeue waiters
(at most one in actual use — single consumer).  `close()` rejects every
waiter with `Error('队列已关闭')` and clears the buffer. -/

structure QueueState where
  messages : List JMsg
  waiters : Nat
  closed : Bool
deriving DecidableEq, Repr

def newQueue : QueueState := ⟨[], 0, false⟩

/-- One rejection of a pending `dequeue` with the closed-queue error. -/
inductive Release where
  | closedRelease
deriving DecidableEq, Repr

/-- `close()`: idempotent; every waiter is rejected with `ClosedError`,
the buffer is cleared. -/
def closeQueue (q : QueueState) : QueueState × List Release :=
  (⟨[], 0, true⟩, List.replicate q.waiters .closedRelease)

/-- How a call to `dequeue` begins. -/
inductive DequeueStart where
  /-- a buffered message is popped immediately -/
  | immediate (m : JMsg)
  /-- no message buffered: the caller becomes a pending waiter -/
  | waiting
  /-- the queue was already closed: throws at once -/
  | closedAtStart
deriving DecidableEq, Repr

def startDequeue (q : QueueState) : QueueState × DequeueStart :=
  if q.closed then (q, .closedAtStart)
  else
    match q.messages with
    | m :: rest => ({ q with messages := rest }, .immediate m)
    | [] => ({ q with waiters := q.waiters + 1 }, .waiting)

/-- `enqueue`: dropped if closed; satisfies a waiter if any, else
buffers. -/
def enqueue (m : JMsg) (q : QueueState) : QueueState :=
  if q.closed then q
  else if 0 < q.waiters then { q with waiters := q.waiters - 1 }
  else { q with messages := q.messages ++ [m] }

/-- The registry: the set of worker websockets and the
`request_id → MessageQueue` map (an association list). -/
structure Registry where
  connections : List Nat
  messageQueues : List (String × QueueState)
deriving DecidableEq, Repr

def lookupQueue (id : String) : List (String × QueueState) → Option QueueState
  | [] => none
  | (k, v) :: rest => if k = id then some v else lookupQueue id rest

def setQueue (id : String) (q : QueueState) :
    List (String × QueueState) → List (String × QueueState)
  | [] => [(id, q)]
  | (k, v) :: rest => if k = id then (k, q) :: rest else (k, v) :: setQueue id q rest

/-- `createMessageQueue(requestId)`. -/
def createMessageQueue (id : String) (reg : Registry) : Registry :=
  { reg with messageQueues := setQueue id newQueue reg.messageQueues }

/-- A dispatcher starting `dequeue()` on its mailbox. -/
def registryDequeue (id : String) (reg : Registry) : Registry × Option DequeueStart :=
  match lookupQueue id reg.messageQueues with
  | none => (reg, none)
  | some q =>
    let r := startDequeue q
    ({ reg with messageQueues := setQueue id r.1 reg.messageQueues }, some r.2)

/-- `removeMessageQueue(requestId)`: close and forget one mailbox. -/
def removeMessageQueue (id : String) (reg : Registry) : Registry × List Release :=
  match lookupQueue id reg.messageQueues with
  | none => (reg, [])
  | some q =>
    ({ reg with messageQueues := (reg.messageQueues.filter (fun p => p.1 ≠ id)) },
      (closeQueue q).2)

/-- `_removeConnection` (part_000 lines 555-561), the `websocket.on('close')`
handler registered by `addConnection`: drop the websocket, close every
open mailbox (releasing each pending dequeue with `ClosedError`), and
clear the map.  The second component records, per request id, the
rejections its waiters received. -/
def removeConnection (ws : Nat) (reg : Registry) : Registry × List (String × List Release) :=
  ({ connections := reg.connections.erase ws, messageQueues := [] },
    reg.messageQueues.map (fun p => (p.1, (closeQueue p.2).2)))

/-! ## Theorems -/

lemma getNextAuthIndex_isSome (avail : List Nat) (current : Nat) (h : avail ≠ []) :
    (getNextAuthIndex avail current).isSome := by
  have hlen : avail.length ≠ 0 := by simpa using h
  have hpos : 0 < avail.length := Nat.pos_of_ne_zero hlen
  unfold getNextAuthIndex
  rw [if_neg hlen]
  by_cases h1 : avail.length = 1
  · rw [if_pos h1]
    simp [List.getElem?_eq_getElem hpos]
  · rw [if_neg h1]
    by_cases hi : avail.indexOf current = avail.length
    · simp only [hi, if_pos rfl]
      simp [List.getElem?_eq_getElem hpos]
    · simp only [if_neg hi]
      have hm : (avail.indexOf current + 1) % avail.length < avail.length :=
        Nat.mod_lt _ hpos
      simp [List.getElem?_eq_getElem hm]

/-- C8: `_getNextAuthIndex` is round-robin over the available indices:
`none` exactly when the list is empty; the first available index when the
current one is absent; the index following the current one modulo the
list length otherwise; in particular, over `[1,3,5]`, the successor of 5
is 1 (wrap) and the successor of 2 (absent) is 1. -/
theorem claim_C8_round_robin :
    (∀ (avail : List Nat) (current : Nat),
        getNextAuthIndex avail current = none ↔ avail = [])
    ∧ (∀ (avail : List Nat) (current : Nat), current ∉ avail →
        getNextAuthIndex avail current = avail[0]?)
    ∧ (∀ (avail : List Nat) (current : Nat),
        avail.indexOf current < avail.length →
        getNextAuthIndex avail current =
          avail[(avail.indexOf current + 1) % avail.length]?)
    ∧ getNextAuthIndex [1, 3, 5] 5 = some 1
    ∧ getNextAuthIndex [1, 3, 5] 2 = some 1 := by
  refine ⟨?_, ?_, ?_, by decide, by decide⟩
  · intro avail current
    constructor
    · intro h
      by_contra hne
      have := getNextAuthIndex_isSome avail current hne
      rw [h] at this
      simp at this
    · rintro rfl
      simp [getNextAuthIndex]
  · intro avail current habs
    match avail with
    | [] => simp [getNextAuthIndex]
    | [a] => simp [getNextAuthIndex]
    | a :: b :: rest =>
      have hlen : (a :: b :: rest).length ≠ 0 := by simp
      have h1 : (a :: b :: rest).length ≠ 1 := by simp
      have hi : (a :: b :: rest).indexOf current = (a :: b :: rest).length :=
        List.indexOf_eq_length.mpr habs
      unfold getNextAuthIndex
      rw [if_neg hlen, if_neg h1]
      simp [hi]
  · intro avail current hlt
    match avail with
    | [] => simp at hlt
    | [a] =>
      have h0 : ([a] : List Nat).indexOf current = 0 :=
        Nat.lt_one_iff.mp (by simpa using hlt)
      simp [getNextAuthIndex, h0]
    | a :: b :: rest =>
      have hlen : (a :: b :: rest).length ≠ 0 := by simp
      have h1 : (a :: b :: rest).length ≠ 1 := by simp
      unfold getNextAuthIndex
      rw [if_neg hlen, if_neg h1]
      simp only [if_neg (Nat.ne_of_lt hlt)]

/-- C8 witness: the theorem applied at the spec's concrete inputs. -/
theorem claim_C8_round_robin_witness :
    getNextAuthIndex [1, 3, 5] 2 = [1, 3, 5][0]? ∧
    getNextAuthIndex [1, 3, 5] 5 =
      [1, 3, 5][(([1, 3, 5] : List Nat).indexOf 5 + 1) % ([1, 3, 5] : List Nat).length]? := by
  exact ⟨claim_C8_round_robin.2.1 [1, 3, 5] 2 (by decide),
    claim_C8_round_robin.2.2.1 [1, 3, 5] 5 (by decide)⟩

/-- C9: status reconciliation.  Whenever the heuristic the code applies
to the message text (`extractedTextStatus`, the leftmost
`(?:HTTP|status code)\s+(\d{3})` match filtered to 400-599) yields a
status differing from the explicit field, `_parseAndCorrectErrorDetails`
replaces the status with the text-derived one; when it yields no such
differing status the details are unchanged.  The same holds for the
inline correction of `_handleRequestFailureAndSwitch` with its regex. -/
theorem claim_C9_status_reconciliation :
    (∀ (e : ErrDetails) (p : Nat), extractedTextStatus e = some p →
        e.status ≠ some (p : Int) →
        parseAndCorrectErrorDetails e = { e with status := some (p : Int) })
    ∧ (∀ (e : ErrDetails),
        (∀ p : Nat, extractedTextStatus e = some p → e.status = some (p : Int)) →
        parseAndCorrectErrorDetails e = e)
    ∧ (∀ (e : ErrDetails) (p : Nat), extractedTextStatus2 e = some p →
        e.status ≠ some (p : Int) →
        correctStatusInSwitch e = { e with status := some (p : Int) })
    ∧ (∀ (e : ErrDetails),
        (∀ p : Nat, extractedTextStatus2 e = some p → e.status = some (p : Int)) →
        correctStatusInSwitch e = e) := by
  refine ⟨?_, ?_, ?_, ?_⟩
  · intro e p hex hne
    unfold extractedTextStatus at hex
    unfold parseAndCorrectErrorDetails
    simp only [String.toList] at hex ⊢
    cases hm : e.message with
    | none => simp [hm] at hex
    | some m =>
      simp only [hm] at hex ⊢
      by_cases hms : m = ""
      · simp [hms] at hex
      · rw [if_neg hms] at hex ⊢
        cases hf : findMatch1 m.data with
        | none => simp [hf] at hex
        | some q =>
          simp only [hf] at hex ⊢
          by_cases hr : 400 ≤ q ∧ q ≤ 599
          · rw [if_pos hr] at hex ⊢
            obtain rfl : q = p := by simpa using hex
            rw [if_pos hne]
          · rw [if_neg hr] at hex; cases hex
  · intro e hall
    unfold extractedTextStatus at hall
    unfold parseAndCorrectErrorDetails
    simp only [String.toList] at hall ⊢
    cases hm : e.message with
    | none => rfl
    | some m =>
      simp only [hm] at hall ⊢
      by_cases hms : m = ""
      · rw [if_pos hms]
      · rw [if_neg hms] at hall ⊢
        cases hf : findMatch1 m.data with
        | none => rfl
        | some q =>
          simp only [hf] at hall ⊢
          by_cases hr : 400 ≤ q ∧ q ≤ 599
          · rw [if_pos hr] at hall ⊢
            have hq := hall q (by rfl)
            rw [if_neg (by simp [hq])]
          · rw [if_neg hr]
  · intro e p hex hne
    unfold extractedTextStatus2 at hex
    unfold correctStatusInSwitch
    simp only [String.toList] at hex ⊢
    cases hm : e.message with
    | none => simp [hm] at hex
    | some m =>
      simp only [hm] at hex ⊢
      by_cases hms : m = ""
      · simp [hms] at hex
      · rw [if_neg hms] at hex ⊢
        cases hf : findMatch2 m.data with
        | none => simp [hf] at hex
        | some q =>
          simp only [hf] at hex ⊢
          by_cases hr : 400 ≤ q ∧ q ≤ 599
          · rw [if_pos hr] at hex
            obtain rfl : q = p := by simpa using hex
            rw [if_pos ⟨hr.1, hr.2, hne⟩]
          · rw [if_neg hr] at hex; cases hex
  · intro e hall
    unfold extractedTextStatus2 at hall
    unfold correctStatusInSwitch
    simp only [String.toList] at hall ⊢
    cases hm : e.message with
    | none => rfl
    | some m =>
      simp only [hm] at hall ⊢
      by_cases hms : m = ""
      · rw [if_pos hms]
      · rw [if_neg hms] at hall ⊢
        cases hf : findMatch2 m.data with
        | none => rfl
        | some q =>
          simp only [hf] at hall ⊢
          by_cases hr : 400 ≤ q ∧ q ≤ 599
          · rw [if_pos hr] at hall
            have hq := hall q (by rfl)
            rw [if_neg (by simp [hq])]
          · rw [if_neg (fun hc => hr ⟨hc.1, hc.2.1⟩)]

/-- C9 witness: an explicit 500 with an embedded `status code 429` is
reconciled to 429; a plain message leaves the details unchanged. -/
theorem claim_C9_status_reconciliation_witness :
    parseAndCorrectErrorDetails ⟨some 500, some "Request failed with status code 429"⟩ =
      ⟨some 429, some "Request failed with status code 429"⟩ ∧
    parseAndCorrectErrorDetails ⟨some 500, some "Internal Server Error"⟩ =
      ⟨some 500, some "Internal Server Error"⟩ := by
  constructor
  · exact claim_C9_status_reconciliation.1
      ⟨some 500, some "Request failed with status code 429"⟩ 429 (by decide) (by decide)
  · exact claim_C9_status_reconciliation.2.1
      ⟨some 500, some "Internal Server Error"⟩ (by decide)

/-- C4: rotation is all-or-nothing.  A failed launch closes the browser,
reports the thrown error and leaves `currentAuthIndex` unchanged; the
same holds through `switchAccount`, and `_switchToNextAuth` then
propagates the failure (`launchFailed`) with the active index intact. -/
theorem claim_C4_rotation_all_or_nothing :
    (∀ (launchOk : Nat → Bool) (idx : Nat) (bm : BrowserState),
        bm.browserOpen = false → launchOk idx = false →
        launchBrowser launchOk idx bm = ({ bm with browserOpen := false }, false))
    ∧ (∀ (launchOk : Nat → Bool) (idx : Nat) (bm : BrowserState), launchOk idx = false →
        switchAccount launchOk idx bm = ({ bm with browserOpen := false }, false))
    ∧ (∀ (env : Env) (fo : FailoverState) (nxt : Nat),
        fo.isAuthSwitching = false →
        getNextAuthIndex env.avail fo.bm.currentAuthIndex = some nxt →
        env.launchOk nxt = false →
        switchToNextAuth env fo =
          ({ fo with bm := { fo.bm with browserOpen := false } }, .launchFailed)) := by
  refine ⟨?_, ?_, ?_⟩
  · intro launchOk idx bm hop hlf
    simp [launchBrowser, hop, hlf]
  · intro launchOk idx bm hlf
    simp [switchAccount, launchBrowser, closeBrowser, hlf]
  · intro env fo nxt hsw hnext hlf
    simp only [switchToNextAuth, hsw, Bool.false_eq_true, if_false, hnext]
    simp [switchAccount, launchBrowser, closeBrowser, hlf]

/-- C4 witness. -/
theorem claim_C4_rotation_all_or_nothing_witness :
    switchToNextAuth ⟨⟨3, 3, []⟩, [1, 2], fun _ => false⟩ ⟨2, false, 1, true⟩ =
      (⟨2, false, 1, false⟩, .launchFailed) := by
  exact claim_C4_rotation_all_or_nothing.2.2
    ⟨⟨3, 3, []⟩, [1, 2], fun _ => false⟩ ⟨2, false, 1, true⟩ 2 rfl (by decide) rfl

/-- C3: a reconciled failure status in `immediateSwitchStatusCodes`
rotates immediately (one completed rotation), resets the counter to 0 and
bypasses threshold counting; in particular with codes `[429]` a single
429 failure rotates whatever `failureThreshold` is. -/
theorem claim_C3_immediate_switch :
    (∀ (env : Env) (e : ErrDetails) (fo : FailoverState) (nxt : Nat) (res : Option Response),
        statusIsImmediate env.cfg (correctStatusInSwitch e).status = true →
        fo.isAuthSwitching = false →
        getNextAuthIndex env.avail fo.bm.currentAuthIndex = some nxt →
        env.launchOk nxt = true →
        handleRequestFailureAndSwitch env e fo res =
          ({ failureCount := 0, isAuthSwitching := false,
             bm := { currentAuthIndex := nxt, browserOpen := true } },
           maybeChunk (maybeChunk res (.immediateSwitch (correctStatusInSwitch e).status))
             (.switched nxt),
           true))
    ∧ (∀ (cfg : Config) (avail : List Nat) (lo : Nat → Bool) (e : ErrDetails)
          (fo : FailoverState) (nxt : Nat),
        cfg.immediateSwitchStatusCodes = [429] →
        (correctStatusInSwitch e).status = some 429 →
        fo.isAuthSwitching = false →
        getNextAuthIndex avail fo.bm.currentAuthIndex = some nxt →
        lo nxt = true →
        (handleRequestFailureAndSwitch ⟨cfg, avail, lo⟩ e fo none).2.2 = true) := by
  have main : ∀ (env : Env) (e : ErrDetails) (fo : FailoverState) (nxt : Nat)
      (res : Option Response),
      statusIsImmediate env.cfg (correctStatusInSwitch e).status = true →
      fo.isAuthSwitching = false →
      getNextAuthIndex env.avail fo.bm.currentAuthIndex = some nxt →
      env.launchOk nxt = true →
      handleRequestFailureAndSwitch env e fo res =
        ({ failureCount := 0, isAuthSwitching := false,
           bm := { currentAuthIndex := nxt, browserOpen := true } },
         maybeChunk (maybeChunk res (.immediateSwitch (correctStatusInSwitch e).status))
           (.switched nxt),
         true) := by
    intro env e fo nxt res himm hsw hnext hok
    have hsa : switchToNextAuth env fo =
        ({ failureCount := 0, isAuthSwitching := false,
           bm := { currentAuthIndex := nxt, browserOpen := true } }, .rotated) := by
      simp only [switchToNextAuth, hsw, Bool.false_eq_true, if_false, hnext]
      simp [switchAccount, launchBrowser, closeBrowser, hok]
    simp only [handleRequestFailureAndSwitch, himm, if_true, hsa]
    simp [isRotated]
  refine ⟨main, ?_⟩
  intro cfg avail lo e fo nxt hcodes hst hsw hnext hok
  rw [main ⟨cfg, avail, lo⟩ e fo nxt none
    (by simp [statusIsImmediate, hst, hcodes]) hsw hnext hok]

/-- C3 witness: a single 429 with `immediateSwitchStatusCodes = [429]`
and `failureThreshold = 3` rotates from index 1 to index 2 and resets the
counter. -/
theorem claim_C3_immediate_switch_witness :
    handleRequestFailureAndSwitch ⟨⟨3, 3, [429]⟩, [1, 2], fun _ => true⟩
        ⟨some 429, some "Too Many Requests"⟩ ⟨2, false, 1, true⟩ none =
      (⟨0, false, 2, true⟩,
       maybeChunk (maybeChunk none
           (.immediateSwitch (correctStatusInSwitch ⟨some 429, some "Too Many Requests"⟩).status))
         (.switched 2),
       true) := by
  exact claim_C3_immediate_switch.1 ⟨⟨3, 3, [429]⟩, [1, 2], fun _ => true⟩
    ⟨some 429, some "Too Many Requests"⟩ ⟨2, false, 1, true⟩ 2 none
    (by decide) rfl (by decide) rfl

lemma statusIsImmediate_nil (cfg : Config) (h : cfg.immediateSwitchStatusCodes = [])
    (st : Option Int) : statusIsImmediate cfg st = false := by
  cases st <;> simp [statusIsImmediate, h]

/-- A retryable failure strictly below the threshold only increments the
counter. -/
lemma hrfs_below (env : Env) (e : ErrDetails) (fo : FailoverState) (res : Option Response)
    (hcodes : env.cfg.immediateSwitchStatusCodes = [])
    (hth : 0 < env.cfg.failureThreshold)
    (hlt : fo.failureCount + 1 < env.cfg.failureThreshold) :
    handleRequestFailureAndSwitch env e fo res =
      ({ fo with failureCount := fo.failureCount + 1 }, res, false) := by
  simp only [handleRequestFailureAndSwitch,
    statusIsImmediate_nil env.cfg hcodes (correctStatusInSwitch e).status,
    Bool.false_eq_true, if_false, if_pos hth]
  rw [if_neg (by omega)]

/-- A retryable failure reaching the threshold rotates (successfully,
given a working next credential) and resets the counter. -/
lemma hrfs_at (env : Env) (e : ErrDetails) (fo : FailoverState) (res : Option Response)
    (nxt : Nat)
    (hcodes : env.cfg.immediateSwitchStatusCodes = [])
    (hth : 0 < env.cfg.failureThreshold)
    (hge : env.cfg.failureThreshold ≤ fo.failureCount + 1)
    (hsw : fo.isAuthSwitching = false)
    (hnext : getNextAuthIndex env.avail fo.bm.currentAuthIndex = some nxt)
    (hok : env.launchOk nxt = true) :
    handleRequestFailureAndSwitch env e fo res =
      ({ failureCount := 0, isAuthSwitching := false,
         bm := { currentAuthIndex := nxt, browserOpen := true } },
       maybeChunk (maybeChunk res (.thresholdReached (fo.failureCount + 1)))
         (.switched nxt),
       true) := by
  have hsa : switchToNextAuth env { fo with failureCount := fo.failureCount + 1 } =
      ({ failureCount := 0, isAuthSwitching := false,
         bm := { currentAuthIndex := nxt, browserOpen := true } }, .rotated) := by
    simp only [switchToNextAuth, hsw, Bool.false_eq_true, if_false, hnext]
    simp [switchAccount, launchBrowser, closeBrowser, hok]
  simp only [handleRequestFailureAndSwitch,
    statusIsImmediate_nil env.cfg hcodes (correctStatusInSwitch e).status,
    Bool.false_eq_true, if_false, if_pos hth]
  rw [if_pos (by omega)]
  simp [hsa, isRotated]

/-- C2: with `failureThreshold = 3` (and no immediate-switch codes),
three consecutive retryable failures raise the counter to 1 then 2
without rotating, and the third rotates exactly once and resets
the counter to 0; with `failureThreshold = 0` counting-based rotation
never occurs; and a rotation attempted while one is in progress is a
no-op. -/
theorem claim_C2_threshold_counting :
    (∀ (env : Env) (e1 e2 e3 : ErrDetails) (fo0 : FailoverState) (nxt : Nat),
        env.cfg.failureThreshold = 3 →
        env.cfg.immediateSwitchStatusCodes = [] →
        fo0.failureCount = 0 →
        fo0.isAuthSwitching = false →
        getNextAuthIndex env.avail fo0.bm.currentAuthIndex = some nxt →
        env.launchOk nxt = true →
        let h1 := handleRequestFailureAndSwitch env e1 fo0 none
        let h2 := handleRequestFailureAndSwitch env e2 h1.1 none
        let h3 := handleRequestFailureAndSwitch env e3 h2.1 none
        h1.1.failureCount = 1 ∧ h1.2.2 = false ∧
        h2.1.failureCount = 2 ∧ h2.2.2 = false ∧
        h3.1.failureCount = 0 ∧ h3.2.2 = true)
    ∧ (∀ (env : Env) (e : ErrDetails) (fo : FailoverState) (res : Option Response),
        env.cfg.failureThreshold = 0 →
        statusIsImmediate env.cfg (correctStatusInSwitch e).status = false →
        handleRequestFailureAndSwitch env e fo res = (fo, res, false))
    ∧ (∀ (env : Env) (fo : FailoverState), fo.isAuthSwitching = true →
        switchToNextAuth env fo = (fo, .skipped)) := by
  refine ⟨?_, ?_, ?_⟩
  · intro env e1 e2 e3 fo0 nxt hth hcodes h0 hsw hnext hok
    have s1 : handleRequestFailureAndSwitch env e1 fo0 none =
        ({ fo0 with failureCount := 1 }, none, false) := by
      have := hrfs_below env e1 fo0 none hcodes (by omega) (by omega)
      rw [h0] at this
      exact this
    have s2 : handleRequestFailureAndSwitch env e2 { fo0 with failureCount := 1 } none =
        ({ fo0 with failureCount := 2 }, none, false) :=
      hrfs_below env e2 { fo0 with failureCount := 1 } none hcodes (by omega) (by simp; omega)
    have s3 : handleRequestFailureAndSwitch env e3 { fo0 with failureCount := 2 } none =
        ({ failureCount := 0, isAuthSwitching := false,
           bm := { currentAuthIndex := nxt, browserOpen := true } },
         maybeChunk (maybeChunk none (.thresholdReached 3)) (.switched nxt), true) :=
      hrfs_at env e3 { fo0 with failureCount := 2 } none nxt hcodes (by omega) (by simp; omega)
        hsw hnext hok
    simp [s1, s2, s3]
  · intro env e fo res hth himm
    simp [handleRequestFailureAndSwitch, himm, hth]
  · intro env fo hsw
    simp [switchToNextAuth, hsw]

/-- C2 witness: three 500-failures against threshold 3 starting from a
zero counter at index 1 of `[1,2]`. -/
theorem claim_C2_threshold_counting_witness :
    (let env : Env := ⟨⟨3, 3, []⟩, [1, 2], fun _ => true⟩
     let e : ErrDetails := ⟨some 500, some "Internal Server Error"⟩
     let h1 := handleRequestFailureAndSwitch env e ⟨0, false, 1, true⟩ none
     let h2 := handleRequestFailureAndSwitch env e h1.1 none
     let h3 := handleRequestFailureAndSwitch env e h2.1 none
     h1.1.failureCount = 1 ∧ h1.2.2 = false ∧
     h2.1.failureCount = 2 ∧ h2.2.2 = false ∧
     h3.1.failureCount = 0 ∧ h3.2.2 = true) := by
  exact claim_C2_threshold_counting.1 ⟨⟨3, 3, []⟩, [1, 2], fun _ => true⟩
    ⟨some 500, some "Internal Server Error"⟩ ⟨some 500, some "Internal Server Error"⟩
    ⟨some 500, some "Internal Server Error"⟩ ⟨0, false, 1, true⟩ 2
    rfl rfl rfl rfl (by decide) rfl

/-- C7: on worker-channel loss `_removeConnection` closes every open
mailbox — each pending dequeue is released with `ClosedError` — and
clears the id-to-mailbox map; in particular two in-flight requests are
both failed with `ClosedError` and both mailboxes removed. -/
theorem claim_C7_disconnect_fail_fast :
    (∀ (ws : Nat) (reg : Registry),
        (removeConnection ws reg).1.messageQueues = [] ∧
        (removeConnection ws reg).2 =
          reg.messageQueues.map
            (fun p => (p.1, List.replicate p.2.waiters Release.closedRelease)))
    ∧ (∀ (id1 id2 : String) (ws : Nat), id1 ≠ id2 →
        let reg2 := createMessageQueue id2 (createMessageQueue id1 ⟨[ws], []⟩)
        let d1 := registryDequeue id1 reg2
        let d2 := registryDequeue id2 d1.1
        let r := removeConnection ws d2.1
        d1.2 = some .waiting ∧ d2.2 = some .waiting ∧
        r.1.messageQueues = [] ∧
        r.2 = [(id1, [Release.closedRelease]), (id2, [Release.closedRelease])]) := by
  refine ⟨fun ws reg => ⟨rfl, rfl⟩, ?_⟩
  intro id1 id2 ws hne
  have hne2 : id2 ≠ id1 := Ne.symm hne
  simp [createMessageQueue, setQueue, registryDequeue, lookupQueue, startDequeue,
    newQueue, removeConnection, closeQueue, hne, hne2]


lemma realRetryLoop_not_retryable (env : Env) (n : Nat) (hn : 1 ≤ n) (fo : FailoverState)
    (m : JMsg) (rest : List DeqRes) (hm : isRetryableError m = false) :
    realRetryLoop env n fo (.msg m :: rest) = ⟨fo, 1, 0, 0, rest, .ok (some m, false)⟩ := by
  obtain ⟨f, rfl⟩ : ∃ f, n = f + 1 := ⟨n - 1, by omega⟩
  simp [realRetryLoop, hm]

lemma pseudoRetryLoop_not_retryable (env : Env) (isStream : Bool) (n : Nat) (hn : 1 ≤ n)
    (fo : FailoverState) (res : Response) (m : JMsg) (rest : List DeqRes)
    (hm : isRetryableError m = false) :
    pseudoRetryLoop env isStream n fo res (.msg m :: rest) =
      ⟨fo, res, 1, 0, 0, rest, .ok (some m, false)⟩ := by
  obtain ⟨f, rfl⟩ : ∃ f, n = f + 1 := ⟨n - 1, by omega⟩
  simp [pseudoRetryLoop, hm]

lemma realRetryLoop_sends_le (env : Env) :
    ∀ (n : Nat) (fo : FailoverState) (feed : List DeqRes),
    (realRetryLoop env n fo feed).sends ≤ n := by
  intro n
  induction n with
  | zero => intro fo feed; simp [realRetryLoop]
  | succ k ih =>
    intro fo feed
    match feed with
    | [] => simp [realRetryLoop]
    | .timeoutErr :: rest => simp [realRetryLoop]
    | .closedErr :: rest => simp [realRetryLoop]
    | .msg m :: rest =>
      by_cases hm : isRetryableError m
      · by_cases hk : k = 0
        · subst hk
          simp [realRetryLoop, hm]
        · simp only [realRetryLoop, hm, if_true, if_neg hk]
          exact Nat.succ_le_succ (ih _ rest)
      · simp [realRetryLoop, hm]

lemma pseudoRetryLoop_sends_le (env : Env) (isStream : Bool) :
    ∀ (n : Nat) (fo : FailoverState) (res : Response) (feed : List DeqRes),
    (pseudoRetryLoop env isStream n fo res feed).sends ≤ n := by
  intro n
  induction n with
  | zero => intro fo res feed; simp [pseudoRetryLoop]
  | succ k ih =>
    intro fo res feed
    match feed with
    | [] => simp [pseudoRetryLoop]
    | .timeoutErr :: rest => simp [pseudoRetryLoop]
    | .closedErr :: rest => simp [pseudoRetryLoop]
    | .msg m :: rest =>
      by_cases hm : isRetryableError m
      · by_cases hk : k = 0
        · subst hk
          simp [pseudoRetryLoop, hm]
        · simp only [pseudoRetryLoop, hm, if_true, if_neg hk]
          exact Nat.succ_le_succ (ih _ _ rest)
      · simp [pseudoRetryLoop, hm]

lemma realRetryLoop_chain (env : Env) (m g : JMsg) (rest : List DeqRes)
    (hm : isRetryableError m = true) (hg : isRetryableError g = false) :
    ∀ (k n : Nat) (fo : FailoverState), k < n →
    (realRetryLoop env n fo (List.replicate k (DeqRes.msg m) ++ DeqRes.msg g :: rest)).sends
        = k + 1 ∧
    (realRetryLoop env n fo (List.replicate k (DeqRes.msg m) ++ DeqRes.msg g :: rest)).sleeps
        = k ∧
    (realRetryLoop env n fo (List.replicate k (DeqRes.msg m) ++ DeqRes.msg g :: rest)).outcome
        = .ok (some g, false) := by
  intro k
  induction k with
  | zero =>
    intro n fo hk
    rw [List.replicate_zero, List.nil_append,
      realRetryLoop_not_retryable env n (by omega) fo g rest hg]
    exact ⟨rfl, rfl, rfl⟩
  | succ j ih =>
    intro n fo hk
    obtain ⟨f, rfl⟩ : ∃ f, n = f + 1 := ⟨n - 1, by omega⟩
    have hf : j < f := by omega
    have hf0 : f ≠ 0 := by omega
    simp only [List.replicate_succ, List.cons_append, realRetryLoop, hm, if_true, if_neg hf0]
    obtain ⟨hs, hl, ho⟩ := ih f (handleRequestFailureAndSwitch env
      (parseAndCorrectErrorDetails (msgErrDetails m)) fo none).1 hf
    exact ⟨by simp [hs], by simp [hl], by simpa using ho⟩

lemma realRetryLoop_exhaust (env : Env) (m : JMsg) (hm : isRetryableError m = true) :
    ∀ (n : Nat), 1 ≤ n → ∀ (fo : FailoverState),
    (realRetryLoop env n fo (List.replicate n (DeqRes.msg m))).sends = n ∧
    (realRetryLoop env n fo (List.replicate n (DeqRes.msg m))).sleeps = n - 1 ∧
    (realRetryLoop env n fo (List.replicate n (DeqRes.msg m))).outcome
      = .ok (some m, true) := by
  intro n
  induction n with
  | zero => intro h; omega
  | succ k ih =>
    intro _ fo
    by_cases hk : k = 0
    · subst hk
      simp [realRetryLoop, hm]
    · simp only [List.replicate_succ, realRetryLoop, hm, if_true, if_neg hk]
      obtain ⟨hs, hl, ho⟩ := ih (by omega) (handleRequestFailureAndSwitch env
        (parseAndCorrectErrorDetails (msgErrDetails m)) fo none).1
      refine ⟨by simp [hs], by simp [hl]; omega, by simpa using ho⟩

lemma pseudoRetryLoop_chain (env : Env) (isStream : Bool) (m g : JMsg) (rest : List DeqRes)
    (hm : isRetryableError m = true) (hg : isRetryableError g = false) :
    ∀ (k n : Nat) (fo : FailoverState) (res : Response), k < n →
    (pseudoRetryLoop env isStream n fo res
        (List.replicate k (DeqRes.msg m) ++ DeqRes.msg g :: rest)).sends = k + 1 ∧
    (pseudoRetryLoop env isStream n fo res
        (List.replicate k (DeqRes.msg m) ++ DeqRes.msg g :: rest)).sleeps = k ∧
    (pseudoRetryLoop env isStream n fo res
        (List.replicate k (DeqRes.msg m) ++ DeqRes.msg g :: rest)).outcome
      = .ok (some g, false) := by
  intro k
  induction k with
  | zero =>
    intro n fo res hk
    rw [List.replicate_zero, List.nil_append,
      pseudoRetryLoop_not_retryable env isStream n (by omega) fo res g rest hg]
    exact ⟨rfl, rfl, rfl⟩
  | succ j ih =>
    intro n fo res hk
    obtain ⟨f, rfl⟩ : ∃ f, n = f + 1 := ⟨n - 1, by omega⟩
    have hf : j < f := by omega
    have hf0 : f ≠ 0 := by omega
    simp only [List.replicate_succ, List.cons_append, pseudoRetryLoop, hm, if_true, if_neg hf0]
    refine ⟨?_, ?_, ?_⟩
    · dsimp only
      rw [(ih f _ _ hf).1]
    · dsimp only
      rw [(ih f _ _ hf).2.1]
    · dsimp only
      rw [(ih f _ _ hf).2.2]

lemma pseudoRetryLoop_exhaust (env : Env) (isStream : Bool) (m : JMsg)
    (hm : isRetryableError m = true) :
    ∀ (n : Nat), 1 ≤ n → ∀ (fo : FailoverState) (res : Response),
    (pseudoRetryLoop env isStream n fo res (List.replicate n (DeqRes.msg m))).sends = n ∧
    (pseudoRetryLoop env isStream n fo res (List.replicate n (DeqRes.msg m))).sleeps = n - 1 ∧
    (pseudoRetryLoop env isStream n fo res (List.replicate n (DeqRes.msg m))).outcome
      = .ok (some m, true) := by
  intro n
  induction n with
  | zero => intro h; omega
  | succ k ih =>
    intro _ fo res
    by_cases hk : k = 0
    · subst hk
      simp [pseudoRetryLoop, hm]
    · simp only [List.replicate_succ, pseudoRetryLoop, hm, if_true, if_neg hk]
      refine ⟨?_, ?_, ?_⟩
      · dsimp only
        rw [(ih (by omega) _ _).1]
      · dsimp only
        rw [(ih (by omega) _ _).2.1]
        omega
      · dsimp only
        rw [(ih (by omega) _ _).2.2]

lemma endResponse_writes (r : Response) : (endResponse r).writes = r.writes := by
  unfold endResponse; split <;> rfl

lemma endResponse_ended (r : Response) : (endResponse r).ended = true := by
  unfold endResponse
  split
  · assumption
  · rfl

lemma endResponse_status (r : Response) : (endResponse r).status = r.status := by
  unfold endResponse; split <;> rfl

lemma endResponse_body (r : Response) : (endResponse r).body = r.body := by
  unfold endResponse; split <;> rfl

lemma handleReal_terminal (env : Env) (m : JMsg) (hm : isRetryableError m = true)
    (h1 : 1 ≤ env.cfg.maxRetries) (fo : FailoverState) (res : Response) :
    (handleRealStreamResponse env fo (List.replicate env.cfg.maxRetries (DeqRes.msg m)) res).res
      = sendErrorResponse res (parseAndCorrectErrorDetails (msgErrDetails m)).status
          (parseAndCorrectErrorDetails (msgErrDetails m)).message := by
  have ho := (realRetryLoop_exhaust env m hm env.cfg.maxRetries h1 fo).2.2
  unfold handleRealStreamResponse
  simp only [ho]
  simp

lemma realStreamBody_chunks :
    ∀ (ds : List String), (∀ d ∈ ds, d ≠ "") →
    ∀ (fin : List DeqRes) (res : Response),
    realStreamBody ((ds.map fun d => DeqRes.msg (JMsg.chunk (some d))) ++ fin) res =
      realStreamBody fin (ds.foldl (fun r d => r.write (.text d)) res) := by
  intro ds
  induction ds with
  | nil => intro h fin res; simp
  | cons d ds ih =>
    intro h fin res
    have hd : d ≠ "" := h d (by simp)
    simp only [List.map_cons, List.cons_append, realStreamBody, List.foldl_cons]
    rw [show isStreamEnd (JMsg.chunk (some d)) = false from rfl]
    simp only [Bool.false_eq_true, if_false]
    rw [show msgData (JMsg.chunk (some d)) = if d = "" then none else some d from rfl,
      if_neg hd]
    exact ih (fun x hx => h x (by simp [hx])) fin (res.write (.text d))

lemma foldl_write_components (ds : List String) :
    ∀ (res : Response),
    (ds.foldl (fun r d => r.write (.text d)) res).writes
        = res.writes ++ ds.map WriteItem.text ∧
    (ds.foldl (fun r d => r.write (.text d)) res).status = res.status ∧
    (ds.foldl (fun r d => r.write (.text d)) res).body = res.body := by
  induction ds with
  | nil => intro res; simp
  | cons d ds ih =>
    intro res
    obtain ⟨h1, h2, h3⟩ := ih (res.write (.text d))
    refine ⟨?_, by simpa [Response.write] using h2, by simpa [Response.write] using h3⟩
    rw [List.foldl_cons, h1]
    simp [Response.write]

lemma handleReal_success_chunks (env : Env) (fo : FailoverState) (ds : List String)
    (hdrs : List (String × String)) (res : Response)
    (hds : ∀ d ∈ ds, d ≠ "") (h1 : 1 ≤ env.cfg.maxRetries) :
    handleRealStreamResponse env fo
        (DeqRes.msg (.headers (some 200) hdrs) ::
          ds.map fun d => DeqRes.msg (JMsg.chunk (some d))) res =
      ⟨{ fo with failureCount := 0 },
       endResponse (ds.foldl (fun r d => r.write (.text d))
         (setResponseHeaders res (some 200) hdrs)),
       1, 0, 0, none⟩ := by
  have hL := realRetryLoop_not_retryable env env.cfg.maxRetries h1 fo
    (.headers (some 200) hdrs) (ds.map fun d => DeqRes.msg (JMsg.chunk (some d))) rfl
  have hbody := realStreamBody_chunks ds hds [] (setResponseHeaders res (some 200) hdrs)
  rw [List.append_nil] at hbody
  unfold handleRealStreamResponse
  simp only [hL]
  simp [isErrorMsg, msgStatus, msgHeaders, hbody, realStreamBody]

/-- C7 witness: the two-requests-in-flight scenario at request ids "a"
and "b". -/
theorem claim_C7_disconnect_fail_fast_witness :
    (let reg2 := createMessageQueue "b" (createMessageQueue "a" ⟨[0], []⟩)
     let d1 := registryDequeue "a" reg2
     let d2 := registryDequeue "b" d1.1
     let r := removeConnection 0 d2.1
     d1.2 = some .waiting ∧ d2.2 = some .waiting ∧
     r.1.messageQueues = [] ∧
     r.2 = [("a", [Release.closedRelease]), ("b", [Release.closedRelease])]) := by
  exact claim_C7_disconnect_fail_fast.2 "a" "b" 0 (by decide)

/-- C1: the retry loop of both streaming handlers.  At most `maxRetries`
descriptor sends; a first event that is a 400-599 error sleeps and
retries while attempts remain (after `k` such errors followed by a good
first event: `k + 1` sends, `k` sleeps, success with that event); when
every attempt sees such an error the loop performs exactly `maxRetries`
sends and `maxRetries - 1` sleeps and ends with `requestFailed`, which
the real-stream handler turns into the terminal error response; a first
event that is not such an error ends the loop successfully on that
attempt (one send, no sleep). -/
theorem claim_C1_retry_policy (env : Env) (m g : JMsg) (rest : List DeqRes)
    (hm : isRetryableError m = true) (hg : isRetryableError g = false) :
    (∀ (n : Nat) (fo : FailoverState) (feed : List DeqRes),
        (realRetryLoop env n fo feed).sends ≤ n)
    ∧ (∀ (isStream : Bool) (n : Nat) (fo : FailoverState) (res : Response)
          (feed : List DeqRes),
        (pseudoRetryLoop env isStream n fo res feed).sends ≤ n)
    ∧ (∀ (k : Nat) (fo : FailoverState), k < env.cfg.maxRetries →
        (realRetryLoop env env.cfg.maxRetries fo
            (List.replicate k (DeqRes.msg m) ++ DeqRes.msg g :: rest)).sends = k + 1 ∧
        (realRetryLoop env env.cfg.maxRetries fo
            (List.replicate k (DeqRes.msg m) ++ DeqRes.msg g :: rest)).sleeps = k ∧
        (realRetryLoop env env.cfg.maxRetries fo
            (List.replicate k (DeqRes.msg m) ++ DeqRes.msg g :: rest)).outcome
          = .ok (some g, false))
    ∧ (∀ (fo : FailoverState), 1 ≤ env.cfg.maxRetries →
        (realRetryLoop env env.cfg.maxRetries fo
            (List.replicate env.cfg.maxRetries (DeqRes.msg m))).sends
          = env.cfg.maxRetries ∧
        (realRetryLoop env env.cfg.maxRetries fo
            (List.replicate env.cfg.maxRetries (DeqRes.msg m))).sleeps
          = env.cfg.maxRetries - 1 ∧
        (realRetryLoop env env.cfg.maxRetries fo
            (List.replicate env.cfg.maxRetries (DeqRes.msg m))).outcome
          = .ok (some m, true))
    ∧ (∀ (isStream : Bool) (k : Nat) (fo : FailoverState) (res : Response),
        k < env.cfg.maxRetries →
        (pseudoRetryLoop env isStream env.cfg.maxRetries fo res
            (List.replicate k (DeqRes.msg m) ++ DeqRes.msg g :: rest)).sends = k + 1 ∧
        (pseudoRetryLoop env isStream env.cfg.maxRetries fo res
            (List.replicate k (DeqRes.msg m) ++ DeqRes.msg g :: rest)).sleeps = k ∧
        (pseudoRetryLoop env isStream env.cfg.maxRetries fo res
            (List.replicate k (DeqRes.msg m) ++ DeqRes.msg g :: rest)).outcome
          = .ok (some g, false))
    ∧ (∀ (isStream : Bool) (fo : FailoverState) (res : Response),
        1 ≤ env.cfg.maxRetries →
        (pseudoRetryLoop env isStream env.cfg.maxRetries fo res
            (List.replicate env.cfg.maxRetries (DeqRes.msg m))).sends
          = env.cfg.maxRetries ∧
        (pseudoRetryLoop env isStream env.cfg.maxRetries fo res
            (List.replicate env.cfg.maxRetries (DeqRes.msg m))).sleeps
          = env.cfg.maxRetries - 1 ∧
        (pseudoRetryLoop env isStream env.cfg.maxRetries fo res
            (List.replicate env.cfg.maxRetries (DeqRes.msg m))).outcome
          = .ok (some m, true))
    ∧ (∀ (fo : FailoverState) (res : Response), 1 ≤ env.cfg.maxRetries →
        (handleRealStreamResponse env fo
            (List.replicate env.cfg.maxRetries (DeqRes.msg m)) res).res
          = sendErrorResponse res (parseAndCorrectErrorDetails (msgErrDetails m)).status
              (parseAndCorrectErrorDetails (msgErrDetails m)).message) := by
  refine ⟨realRetryLoop_sends_le env, pseudoRetryLoop_sends_le env, ?_, ?_, ?_, ?_, ?_⟩
  · intro k fo hk
    exact realRetryLoop_chain env m g rest hm hg k env.cfg.maxRetries fo hk
  · intro fo h1
    exact realRetryLoop_exhaust env m hm env.cfg.maxRetries h1 fo
  · intro isStream k fo res hk
    exact pseudoRetryLoop_chain env isStream m g rest hm hg k env.cfg.maxRetries fo res hk
  · intro isStream fo res h1
    exact pseudoRetryLoop_exhaust env isStream m hm env.cfg.maxRetries h1 fo res
  · intro fo res h1
    exact handleReal_terminal env m hm h1 fo res

/-- C1 witness: with `maxRetries = 3`, one 500-error first event followed
by a header gives 2 sends and 1 sleep ending successfully; three
500-error first events give 3 sends, 2 sleeps and terminal failure. -/
theorem claim_C1_retry_policy_witness :
    ((realRetryLoop ⟨⟨3, 3, []⟩, [1, 2], fun _ => true⟩ 3 ⟨0, false, 1, true⟩
        (List.replicate 1 (DeqRes.msg (.error (some 500) (some "boom"))) ++
          DeqRes.msg (.headers (some 200) []) :: [])).sends = 1 + 1)
    ∧ ((realRetryLoop ⟨⟨3, 3, []⟩, [1, 2], fun _ => true⟩ 3 ⟨0, false, 1, true⟩
        (List.replicate 3 (DeqRes.msg (.error (some 500) (some "boom"))))).outcome
      = .ok (some (.error (some 500) (some "boom")), true)) := by
  have h := claim_C1_retry_policy ⟨⟨3, 3, []⟩, [1, 2], fun _ => true⟩
    (.error (some 500) (some "boom")) (.headers (some 200) []) [] (by decide) (by decide)
  exact ⟨(h.2.2.1 1 ⟨0, false, 1, true⟩ (by decide)).1,
    (h.2.2.2.1 ⟨0, false, 1, true⟩ (by decide)).2.2⟩

/-- C10: a first dequeued event that is an error whose status is not a
number in 400-599 ends the loop on that very attempt — one send, no
sleep, no rotation, failover state untouched — and both handlers fail the
request terminally with that (reconciled) error. -/
theorem claim_C10_nonretryable_error_terminal (env : Env) (fo : FailoverState)
    (st : Option Int) (mg : Option String) (rest : List DeqRes) (res : Response)
    (path : String)
    (hm : isRetryableError (.error st mg) = false)
    (h1 : 1 ≤ env.cfg.maxRetries)
    (hpath : hasStreamMarker path = false)
    (hhs : res.headersSent = false) :
    realRetryLoop env env.cfg.maxRetries fo (.msg (.error st mg) :: rest) =
      ⟨fo, 1, 0, 0, rest, .ok (some (.error st mg), false)⟩ ∧
    pseudoRetryLoop env false env.cfg.maxRetries fo res (.msg (.error st mg) :: rest) =
      ⟨fo, res, 1, 0, 0, rest, .ok (some (.error st mg), false)⟩ ∧
    handleRealStreamResponse env fo (.msg (.error st mg) :: rest) res =
      ⟨fo, sendErrorResponse res (parseAndCorrectErrorDetails ⟨st, mg⟩).status
            (parseAndCorrectErrorDetails ⟨st, mg⟩).message, 1, 0, 0, none⟩ ∧
    handlePseudoStreamResponse env path fo (.msg (.error st mg) :: rest) res =
      ⟨fo, endResponse (sendErrorResponse res (parseAndCorrectErrorDetails ⟨st, mg⟩).status
            (some ("请求失败: " ++ optStr (parseAndCorrectErrorDetails ⟨st, mg⟩).message))),
        1, 0, 0, none⟩ := by
  refine ⟨realRetryLoop_not_retryable env _ h1 fo (.error st mg) rest hm,
    pseudoRetryLoop_not_retryable env false _ h1 fo res (.error st mg) rest hm, ?_, ?_⟩
  · have hL := realRetryLoop_not_retryable env _ h1 fo (.error st mg) rest hm
    unfold handleRealStreamResponse
    simp only [hL]
    simp [isErrorMsg, msgErrDetails]
  · have hL := pseudoRetryLoop_not_retryable env false _ h1 fo res (.error st mg) rest hm
    unfold handlePseudoStreamResponse
    simp only [hpath, Bool.false_eq_true, if_false, hL]
    simp [isErrorMsg, msgErrDetails, hhs]

/-- C10 witness: an error event with no status field at all. -/
theorem claim_C10_nonretryable_error_terminal_witness :
    handleRealStreamResponse ⟨⟨3, 0, []⟩, [1], fun _ => true⟩ ⟨0, false, 1, true⟩
        (.msg (.error none (some "mystery failure")) :: []) {} =
      ⟨⟨0, false, 1, true⟩,
        sendErrorResponse {}
          (parseAndCorrectErrorDetails ⟨none, some "mystery failure"⟩).status
          (parseAndCorrectErrorDetails ⟨none, some "mystery failure"⟩).message,
        1, 0, 0, none⟩ := by
  exact (claim_C10_nonretryable_error_terminal ⟨⟨3, 0, []⟩, [1], fun _ => true⟩
    ⟨0, false, 1, true⟩ none (some "mystery failure") [] {} "/v1/chat/completions"
    (by decide) (by decide) (by decide) rfl).2.2.1

/-- C5: under the passthrough policy, once the header has been relayed a
chunk-wait timeout (silence, or an explicit `队列超时`) is benign: the
body loop closes the response containing exactly the chunks written so
far, with no error; through the whole handler, `Header{200}` followed by
chunks and silence yields a closed 200 response whose writes are exactly
those chunks and no thrown error. -/
theorem claim_C5_benign_chunk_timeout :
    (∀ (ds : List String), (∀ d ∈ ds, d ≠ "") → ∀ (res : Response),
        realStreamBody (ds.map fun d => DeqRes.msg (JMsg.chunk (some d))) res =
          (endResponse (ds.foldl (fun r d => r.write (.text d)) res), none))
    ∧ (∀ (ds : List String), (∀ d ∈ ds, d ≠ "") →
        ∀ (res : Response) (tail : List DeqRes),
        realStreamBody ((ds.map fun d => DeqRes.msg (JMsg.chunk (some d))) ++
            DeqRes.timeoutErr :: tail) res =
          (endResponse (ds.foldl (fun r d => r.write (.text d)) res), none))
    ∧ (∀ (env : Env) (fo : FailoverState) (ds : List String)
          (hdrs : List (String × String)) (res : Response),
        (∀ d ∈ ds, d ≠ "") → 1 ≤ env.cfg.maxRetries →
        let H := handleRealStreamResponse env fo
          (DeqRes.msg (.headers (some 200) hdrs) ::
            ds.map fun d => DeqRes.msg (JMsg.chunk (some d))) res
        H.res.writes = res.writes ++ ds.map WriteItem.text ∧
        H.res.ended = true ∧
        H.res.status = some 200 ∧
        H.thrown = none) := by
  refine ⟨?_, ?_, ?_⟩
  · intro ds h res
    have hc := realStreamBody_chunks ds h [] res
    rw [List.append_nil] at hc
    rw [hc]
    rfl
  · intro ds h res tail
    rw [realStreamBody_chunks ds h (DeqRes.timeoutErr :: tail) res]
    rfl
  · intro env fo ds hdrs res hds h1
    rw [handleReal_success_chunks env fo ds hdrs res hds h1]
    refine ⟨?_, endResponse_ended _, ?_, rfl⟩
    · rw [endResponse_writes, (foldl_write_components ds _).1]
      simp [setResponseHeaders]
    · rw [endResponse_status, (foldl_write_components ds _).2.1]
      simp [setResponseHeaders]

/-- C5 witness: `Header{200}` plus three chunks and silence gives a
closed 200 response with exactly those three chunks and no error. -/
theorem claim_C5_benign_chunk_timeout_witness :
    (let H := handleRealStreamResponse ⟨⟨3, 0, []⟩, [1], fun _ => true⟩ ⟨0, false, 1, true⟩
        (DeqRes.msg (.headers (some 200) []) ::
          ["alpha", "beta", "gamma"].map fun d => DeqRes.msg (JMsg.chunk (some d)))
        {}
     H.res.writes = ({} : Response).writes ++ ["alpha", "beta", "gamma"].map WriteItem.text ∧
     H.res.ended = true ∧
     H.res.status = some 200 ∧
     H.thrown = none) := by
  exact claim_C5_benign_chunk_timeout.2.2 ⟨⟨3, 0, []⟩, [1], fun _ => true⟩
    ⟨0, false, 1, true⟩ ["alpha", "beta", "gamma"] [] {} (by decide) (by decide)

/-- C6: under the buffered policy, a worker emitting `Header{200}`,
`Chunk{data}`, `StreamEnd` yields — on a path marked `:stream` — exactly
one `data:` frame carrying `data` followed by the `data: [DONE]`
terminator on a closed response, and — on an unmarked path — one JSON
body `JSON.stringify(JSON.parse(data))` with status 200. -/
theorem claim_C6_buffered_delivery (env : Env) (fo : FailoverState) (res : Response)
    (hdrs : List (String × String)) (data : String) (j : JValue) (pathS pathN : String)
    (h1 : 1 ≤ env.cfg.maxRetries) (hd : data ≠ "")
    (hj : jparse data = some j)
    (hS : hasStreamMarker pathS = true) (hN : hasStreamMarker pathN = false)
    (hw : res.writes = []) :
    ((handlePseudoStreamResponse env pathS fo
        [.msg (.headers (some 200) hdrs), .msg (.chunk (some data)), .msg .streamEnd]
        res).res.writes =
          [.text ("data: " ++ data ++ "\n\n"), .text "data: [DONE]\n\n"] ∧
      (handlePseudoStreamResponse env pathS fo
        [.msg (.headers (some 200) hdrs), .msg (.chunk (some data)), .msg .streamEnd]
        res).res.ended = true) ∧
    ((handlePseudoStreamResponse env pathN fo
        [.msg (.headers (some 200) hdrs), .msg (.chunk (some data)), .msg .streamEnd]
        res).res.body = some (jstringify j) ∧
      (handlePseudoStreamResponse env pathN fo
        [.msg (.headers (some 200) hdrs), .msg (.chunk (some data)), .msg .streamEnd]
        res).res.status = some 200 ∧
      (handlePseudoStreamResponse env pathN fo
        [.msg (.headers (some 200) hdrs), .msg (.chunk (some data)), .msg .streamEnd]
        res).res.ended = true) := by
  constructor
  · have hL := pseudoRetryLoop_not_retryable env true env.cfg.maxRetries h1 fo
      { res with status := some 200, headersList := res.headersList ++ sseHeaders }
      (.headers (some 200) hdrs) [.msg (.chunk (some data)), .msg .streamEnd] rfl
    unfold handlePseudoStreamResponse
    simp only [hS, if_true, hL]
    simp [isErrorMsg, deq, msgData, hd, Response.write, endResponse_writes,
      endResponse_ended, hw]
  · have hL := pseudoRetryLoop_not_retryable env false env.cfg.maxRetries h1 fo res
      (.headers (some 200) hdrs) [.msg (.chunk (some data)), .msg .streamEnd] rfl
    unfold handlePseudoStreamResponse
    simp only [hN, Bool.false_eq_true, if_false, hL]
    simp [isErrorMsg, deq, msgData, hd, hj, resJson, endResponse_body,
      endResponse_status, endResponse_ended]

/-- C6 witness: the data `"hello"` (as the JSON text `"hello"`) on a
`:stream`-marked and an unmarked path. -/
theorem claim_C6_buffered_delivery_witness :
    ((handlePseudoStreamResponse ⟨⟨3, 0, []⟩, [1], fun _ => true⟩
        "/v1beta/models/g:streamGenerateContent" ⟨0, false, 1, true⟩
        [.msg (.headers (some 200) []), .msg (.chunk (some "\"hello\"")), .msg .streamEnd]
        {}).res.writes =
          [.text ("data: " ++ "\"hello\"" ++ "\n\n"), .text "data: [DONE]\n\n"] ∧
      (handlePseudoStreamResponse ⟨⟨3, 0, []⟩, [1], fun _ => true⟩
        "/v1beta/models/g:streamGenerateContent" ⟨0, false, 1, true⟩
        [.msg (.headers (some 200) []), .msg (.chunk (some "\"hello\"")), .msg .streamEnd]
        {}).res.ended = true) ∧
    ((handlePseudoStreamResponse ⟨⟨3, 0, []⟩, [1], fun _ => true⟩
        "/v1beta/models/g:generateContent" ⟨0, false, 1, true⟩
        [.msg (.headers (some 200) []), .msg (.chunk (some "\"hello\"")), .msg .streamEnd]
        {}).res.body = some (jstringify (.jstr "hello")) ∧
      (handlePseudoStreamResponse ⟨⟨3, 0, []⟩, [1], fun _ => true⟩
        "/v1beta/models/g:generateContent" ⟨0, false, 1, true⟩
        [.msg (.headers (some 200) []), .msg (.chunk (some "\"hello\"")), .msg .streamEnd]
        {}).res.status = some 200 ∧
      (handlePseudoStreamResponse ⟨⟨3, 0, []⟩, [1], fun _ => true⟩
        "/v1beta/models/g:generateContent" ⟨0, false, 1, true⟩
        [.msg (.headers (some 200) []), .msg (.chunk (some "\"hello\"")), .msg .streamEnd]
        {}).res.ended = true) := by
  exact claim_C6_buffered_delivery ⟨⟨3, 0, []⟩, [1], fun _ => true⟩ ⟨0, false, 1, true⟩
    {} [] "\"hello\"" (.jstr "hello")
    "/v1beta/models/g:streamGenerateContent" "/v1beta/models/g:generateContent"
    (by decide) (by decide) (by rfl) (by decide) (by decide) rfl

end Xiaone
